import Mathlib

/-!
# Verification of the chart-generator frontend and inference-engine contract

Shallow embedding of the repository's TypeScript sources:

* `ChartType`, `AxisSpec`, `SeriesSpec`, `ChartSpec` — the consumer-side
  contract (`src/types/chartSpec.ts`).
* `chartSpecToHighcharts` — the converter (`src/utils/chartConverter.ts`),
  modelled as an association list of Highcharts option entries with
  JavaScript object-spread (last-binding-wins) lookup semantics.
* `pieTable` / `seriesTable` — the tabular fallback of the `ChartDisplay`
  component (`src/components/ChartDisplay.tsx`).
* `buildHints` / `handleSubmitRequestHints` — the hint assembly of the
  `JsonInput` component (`src/components/JsonInput.tsx`).
* A model of the backend inference engine (`infer` / `validate`), which is
  not part of the checked-in sources and is therefore modelled from the
  specification document.
-/

/-- The chart-type enum of `src/types/chartSpec.ts` (`export enum ChartType`). -/
inductive ChartType where
  | line
  | bar
  | column
  | pie
  | area
  | scatter
  | heatmap
  deriving DecidableEq, Repr

/-- The string value carried by each `ChartType` enum member in the source. -/
def chartTypeStr : ChartType → String
  | .line => "line"
  | .bar => "bar"
  | .column => "column"
  | .pie => "pie"
  | .area => "area"
  | .scatter => "scatter"
  | .heatmap => "heatmap"

/-- Lower-casing a string character by character (ASCII, as the field names
involved are). -/
def lowerStr (s : String) : String :=
  ⟨s.data.map Char.toLower⟩

/-- `String.prototype.trim`: whitespace stripped from both ends. -/
def jsTrim (s : String) : String :=
  ⟨((s.data.dropWhile Char.isWhitespace).reverse.dropWhile
      Char.isWhitespace).reverse⟩

/-- Primitive JavaScript values as they occur inside data points and in the
`config` passthrough map.  (`unknown` record/config values are restricted to
primitives in this embedding; no claim inspects nested structure of such
values.) -/
inductive PrimVal where
  | num (n : Int)
  | str (s : String)
  | bool (b : Bool)
  | nullV
  deriving DecidableEq, Repr

/-- One element of `SeriesSpec.data`:
`Record<string, unknown> | Array<number | string> | number`. -/
inductive DataPoint where
  | obj (fields : List (String × PrimVal))
  | arr (elems : List PrimVal)
  | num (n : Int)
  deriving DecidableEq, Repr

/-- `interface AxisSpec` of `src/types/chartSpec.ts`. -/
structure AxisSpec where
  title : String
  field : Option String
  type : String
  unit : Option String
  format : Option String
  min : Option Int
  max : Option Int
  deriving DecidableEq, Repr

/-- `interface SeriesSpec` of `src/types/chartSpec.ts`. -/
structure SeriesSpec where
  name : String
  data : List DataPoint
  type : Option String
  color : Option String
  y_axis : Nat
  deriving DecidableEq, Repr

/-- `interface ChartSpec` of `src/types/chartSpec.ts`. -/
structure ChartSpec where
  chart_type : ChartType
  title : String
  subtitle : Option String
  series : List SeriesSpec
  x_axis : AxisSpec
  y_axis : Option AxisSpec
  rationale : String
  alternative_types : List ChartType
  description : Option String
  config : List (String × PrimVal)
  deriving DecidableEq, Repr

/-- Last-binding-wins lookup in an association list; this is the value an
assembled JavaScript object (built left to right, later keys overriding
earlier ones) holds at key `k`. -/
def lookupLast {α : Type} (k : String) : List (String × α) → Option α
  | [] => none
  | p :: rest =>
      match lookupLast k rest with
      | some v => some v
      | none => if p.1 = k then some p.2 else none

/-- The per-axis options object built by `chartSpecToHighcharts`
(`title: { text }`, `type`, `min`, `max`). -/
structure AxisOptions where
  titleText : String
  type : String
  min : Option Int
  max : Option Int
  deriving DecidableEq, Repr

/-- The per-series options object built by `chartSpecToHighcharts`.  The
source's pie branch (`{ ...seriesConfig, type: "pie", data: ... }`) is
runtime-identical to the generic branch: the `data` casts are erased at
runtime and `type` is already the chart type string. -/
structure SeriesOptions where
  name : String
  data : List DataPoint
  type : String
  color : Option String
  yAxis : Nat
  deriving DecidableEq, Repr

/-- One value in the assembled Highcharts options object. -/
inductive HValue where
  | undef
  | titleV (text : String)
  | subtitleV (text : String)
  | creditsV (enabled : Bool)
  | accessibilityV (description : String)
  | chartV (type : String)
  | seriesV (ss : List SeriesOptions)
  | xAxisV (axes : List AxisOptions)
  | yAxisV (axes : List AxisOptions)
  | confV (v : PrimVal)
  deriving DecidableEq, Repr

/-- The series mapper inside `chartSpecToHighcharts`
(`spec.series.map((s) => ...)`); `s.color || undefined` makes an empty
string behave like an absent color (JavaScript truthiness). -/
def buildSeriesOptions (t : ChartType) (s : SeriesSpec) : SeriesOptions :=
  { name := s.name
    data := s.data
    type := chartTypeStr t
    color :=
      match s.color with
      | some c => if c = "" then none else some c
      | none => none
    yAxis := s.y_axis }

/-- The x-axis builder of `chartSpecToHighcharts`
(`if (spec.x_axis && chartType !== ChartType.PIE) { ... }`; `spec.x_axis`
is a required object, hence always truthy). -/
def buildXAxis (spec : ChartSpec) : Option AxisOptions :=
  if spec.chart_type = ChartType.pie then none
  else
    some
      { titleText := spec.x_axis.title
        type :=
          if spec.x_axis.type = "datetime" then "datetime"
          else if spec.x_axis.type = "log" then "logarithmic"
          else if spec.x_axis.type = "category" then "category"
          else "linear"
        min := spec.x_axis.min
        max := spec.x_axis.max }

/-- The y-axis builder of `chartSpecToHighcharts`
(`if (spec.y_axis && chartType !== ChartType.PIE) { ... }`); note its type
mapping only distinguishes `log` and `category`, and the axis title is
`spec.y_axis.title + (spec.y_axis.unit ? ` (unit)` : "")` (an empty-string
unit is falsy in JavaScript). -/
def buildYAxis (spec : ChartSpec) : Option AxisOptions :=
  match spec.y_axis with
  | none => none
  | some ax =>
      if spec.chart_type = ChartType.pie then none
      else
        some
          { titleText :=
              ax.title ++
                (match ax.unit with
                 | some u => if u = "" then "" else " (" ++ u ++ ")"
                 | none => "")
            type :=
              if ax.type = "log" then "logarithmic"
              else if ax.type = "category" then "category"
              else "linear"
            min := ax.min
            max := ax.max }

/-- `chartSpecToHighcharts` of `src/utils/chartConverter.ts`, as the ordered
key/value sequence of the final object literal
`{ ...baseConfig, chart, series, xAxis, yAxis, ...spec.config }`.
`subtitle: spec.subtitle ? {text} : undefined` and
`accessibility.description: spec.description || spec.title` follow
JavaScript truthiness (empty string is falsy);
`xAxis: xAxis ? [xAxis] : undefined` wraps the built axis in a
one-element array. -/
def chartSpecToHighcharts (spec : ChartSpec) : List (String × HValue) :=
  [ ("title", HValue.titleV spec.title),
    ("subtitle",
      match spec.subtitle with
      | some s => if s = "" then HValue.undef else HValue.subtitleV s
      | none => HValue.undef),
    ("credits", HValue.creditsV false),
    ("accessibility",
      HValue.accessibilityV
        (match spec.description with
         | some d => if d = "" then spec.title else d
         | none => spec.title)),
    ("chart", HValue.chartV (chartTypeStr spec.chart_type)),
    ("series", HValue.seriesV (spec.series.map (buildSeriesOptions spec.chart_type))),
    ("xAxis",
      match buildXAxis spec with
      | some a => HValue.xAxisV [a]
      | none => HValue.undef),
    ("yAxis",
      match buildYAxis spec with
      | some a => HValue.yAxisV [a]
      | none => HValue.undef) ]
  ++ spec.config.map (fun p => (p.1, HValue.confV p.2))

/-- Reading a key off the assembled options object; a missing key reads as
`undefined`, like JavaScript property access. -/
def getOpt (k : String) (l : List (String × HValue)) : HValue :=
  (lookupLast k l).getD HValue.undef

/-! ## ChartDisplay's tabular fallback (`src/components/ChartDisplay.tsx`) -/

/-- `String(v)` on a primitive value. -/
def jsToString : PrimVal → String
  | .num n => toString n
  | .str s => s
  | .bool b => if b then "true" else "false"
  | .nullV => "null"

/-- A JavaScript number that may be `NaN` (result of `Number(v)` on a
non-numeric value). -/
inductive JsNum where
  | int (n : Int)
  | nan
  deriving DecidableEq, Repr

/-- Whether a string is a canonical (optionally negated) digit string; such
strings convert cleanly under `Number(...)`. -/
def isNumericString (s : String) : Bool :=
  match s.toList with
  | [] => false
  | '-' :: rest => !rest.isEmpty && rest.all Char.isDigit
  | cs => cs.all Char.isDigit

/-- Digits-to-number accumulator. -/
def parseNat (cs : List Char) : Nat :=
  cs.foldl (fun a c => a * 10 + (c.toNat - 48)) 0

/-- Integer value of a numeric string (only applied when `isNumericString`). -/
def parseInt (s : String) : Int :=
  match s.toList with
  | '-' :: rest => -(parseNat rest : Int)
  | cs => (parseNat cs : Int)

/-- `Number(v)` on a primitive value (`Number(null) = 0`, `Number("") = 0`,
`Number(true) = 1`; a non-numeric string gives `NaN`). -/
def jsToNumber : PrimVal → JsNum
  | .num n => .int n
  | .str s =>
      if s = "" then .int 0
      else if isNumericString s then .int (parseInt s)
      else .nan
  | .bool b => .int (if b then 1 else 0)
  | .nullV => .int 0

/-- One row of the pie-chart fallback table (`{ name, value }`). -/
structure PieRow where
  name : String
  value : JsNum
  deriving DecidableEq, Repr

/-- The per-item mapper of the pie branch of `tableData`: an item that is an
object carrying both a `name` and a `y` property becomes
`{ name: String(item.name), value: Number(item.y) }`; every other item maps
to `null` (arrays and numbers have neither property, non-objects fail the
`typeof` test). -/
def pieCell (p : DataPoint) : Option PieRow :=
  match p with
  | .obj fields =>
      match lookupLast "name" fields, lookupLast "y" fields with
      | some nv, some yv => some ⟨jsToString nv, jsToNumber yv⟩
      | _, _ => none
  | _ => none

/-- The pie branch of `tableData`:
`spec.series[0]?.data.map(pieCell).filter(Boolean) || []`. -/
def pieTable (spec : ChartSpec) : List PieRow :=
  match spec.series with
  | [] => []
  | s :: _ => (s.data.map pieCell).filterMap id

/-- The cells one series contributes to row `i` of the non-pie fallback
table: a point that is an array of length ≥ 2 contributes the x cell (keyed
by `spec.x_axis.title`) and the y cell (keyed by the series name); a bare
number contributes only the y cell; anything else (missing point, short
array, object) contributes nothing. -/
def pointCells (xTitle sName : String) : Option DataPoint → List (String × PrimVal)
  | some (.arr (e0 :: e1 :: _)) => [(xTitle, e0), (sName, e1)]
  | some (.num n) => [(sName, .num n)]
  | _ => []

/-- Row `i` of the non-pie fallback table: the `spec.series.forEach` loop
assigning `row[...]` in series order (last assignment wins on lookup). -/
def buildRow (spec : ChartSpec) (i : Nat) : List (String × PrimVal) :=
  spec.series.foldl
    (fun row s => row ++ pointCells spec.x_axis.title s.name (s.data.get? i)) []

/-- `Math.max(...spec.series.map((s) => s.data.length))`; with no series the
JavaScript value is `-Infinity` and the row loop runs zero times, which the
value `0` reproduces. -/
def maxLen (spec : ChartSpec) : Nat :=
  spec.series.foldl (fun m s => max m s.data.length) 0

/-- The non-pie branch of `tableData`: one row per index `i < maxLength`. -/
def seriesTable (spec : ChartSpec) : List (List (String × PrimVal)) :=
  (List.range (maxLen spec)).map (buildRow spec)

/-! ## JsonInput's hint assembly (`src/components/JsonInput.tsx`) -/

/-- The three hint-relevant input states of the `JsonInput` component
(`preferredChartType` is `""` for the Auto-detect option). -/
structure JsonInputState where
  preferredChartType : String
  xField : String
  yField : String
  deriving DecidableEq, Repr

/-- The `hints` object assembled by `handleSubmit`: conditional key
assignments in source order (`if (preferredChartType)`,
`if (xField.trim())`, `if (yField.trim())`; JavaScript string truthiness is
non-emptiness). -/
def buildHints (st : JsonInputState) : List (String × String) :=
  (if st.preferredChartType ≠ "" then [("preferred_chart_type", st.preferredChartType)] else [])
    ++ (if jsTrim st.xField ≠ "" then [("x_field", jsTrim st.xField)] else [])
    ++ (if jsTrim st.yField ≠ "" then [("y_field", jsTrim st.yField)] else [])

/-- The `hints` member of the submitted request:
`Object.keys(hints).length > 0 ? hints : null`. -/
def handleSubmitRequestHints (st : JsonInputState) : Option (List (String × String)) :=
  if (buildHints st).length > 0 then some (buildHints st) else none

/-! ## Field-for-field schema comparison (consumer `ChartSpec` vs the
specification's `ChartDescription` contract) -/

/-- Whether a declared field is required or optional. -/
inductive Optionality where
  | required
  | optional
  deriving DecidableEq, Repr

/-- A declared field: its name and its optionality. -/
structure FieldDesc where
  name : String
  opt : Optionality
  deriving DecidableEq, Repr

/-- The fields of the TypeScript `AxisSpec` interface, in declaration order
(`?`-marked members are optional). -/
def axisSpecFields : List FieldDesc :=
  [⟨"title", .required⟩, ⟨"field", .optional⟩, ⟨"type", .required⟩,
   ⟨"unit", .optional⟩, ⟨"format", .optional⟩, ⟨"min", .optional⟩,
   ⟨"max", .optional⟩]

/-- The fields of the TypeScript `SeriesSpec` interface, in declaration
order; note `y_axis: number` carries no `?`. -/
def seriesSpecFields : List FieldDesc :=
  [⟨"name", .required⟩, ⟨"data", .required⟩, ⟨"type", .optional⟩,
   ⟨"color", .optional⟩, ⟨"y_axis", .required⟩]

/-- The fields of the TypeScript `ChartSpec` interface, in declaration
order. -/
def chartSpecFields : List FieldDesc :=
  [⟨"chart_type", .required⟩, ⟨"title", .required⟩, ⟨"subtitle", .optional⟩,
   ⟨"series", .required⟩, ⟨"x_axis", .required⟩, ⟨"y_axis", .optional⟩,
   ⟨"rationale", .required⟩, ⟨"alternative_types", .required⟩,
   ⟨"description", .optional⟩, ⟨"config", .required⟩]

/-- Modelled from the spec: the `AxisSpec` attribute list of spec §3
("`title`, optional source `field` name, semantic `type`, optional `unit`,
optional `format`, optional `min`/`max` bounds"). -/
def axisDescriptionFields : List FieldDesc :=
  [⟨"title", .required⟩, ⟨"field", .optional⟩, ⟨"type", .required⟩,
   ⟨"unit", .optional⟩, ⟨"format", .optional⟩, ⟨"min", .optional⟩,
   ⟨"max", .optional⟩]

/-- Modelled from the spec: the per-series attribute list of the
`ChartDescription` contract of spec §3 ("each with name, formatted data,
optional per-series color/type/secondary-axis index") — the secondary-axis
index is listed among the optional per-series attributes. -/
def seriesDescriptionFields : List FieldDesc :=
  [⟨"name", .required⟩, ⟨"data", .required⟩, ⟨"color", .optional⟩,
   ⟨"type", .optional⟩, ⟨"y_axis", .optional⟩]

/-- Modelled from the spec: the top-level attribute list of the
`ChartDescription` contract of spec §3. -/
def chartDescriptionFields : List FieldDesc :=
  [⟨"chart_type", .required⟩, ⟨"title", .required⟩, ⟨"subtitle", .optional⟩,
   ⟨"series", .required⟩, ⟨"x_axis", .required⟩, ⟨"y_axis", .optional⟩,
   ⟨"rationale", .required⟩, ⟨"alternative_types", .required⟩,
   ⟨"description", .optional⟩, ⟨"config", .required⟩]

/-- The optionality a field list declares for a given field name. -/
def fieldOpt (l : List FieldDesc) (n : String) : Option Optionality :=
  (l.find? (fun f => f.name = n)).map (·.opt)

/-- Two field lists agree field-for-field: each declares exactly the other's
field names, with the same optionality (order-insensitive). -/
def fieldsAgree (l₁ l₂ : List FieldDesc) : Bool :=
  l₁.all (fun f => fieldOpt l₂ f.name = some f.opt) &&
    l₂.all (fun f => fieldOpt l₁ f.name = some f.opt)

/-! ## The chart inference engine

Modelled from the spec: the backend inference engine
(`backend/app/services`, per the README's project layout) is not among the
checked-in sources — only its consumer-side contract is.  The definitions
below follow spec §§4–7: Type Classifier (§4.1), Pattern Detector (§4.2),
Data Extractor (§4.3), Chart Type Selector (§4.4), Axis Builder (§4.5),
Series Formatter (§4.6), Rationale Generator (§4.7), and the `infer` /
`validate` entry points of §6. -/

/-- An untyped JSON-compatible value tree (`RawInput` of spec §3). -/
inductive Json where
  | null
  | bool (b : Bool)
  | num (n : Int)
  | str (s : String)
  | arr (xs : List Json)
  | obj (fields : List (String × Json))

/-- Modelled from the spec: `UserHints` of spec §3 — all members optional;
`units`/`formatting` map field names to unit/format strings. -/
structure UserHints where
  preferred_chart_type : Option ChartType
  x_field : Option String
  y_field : Option String
  units : List (String × String)
  formatting : List (String × String)

/-- The all-absent hints value ("infer everything"). -/
def UserHints.none' : UserHints := ⟨none, none, none, [], []⟩

/-- First-binding lookup on a JSON object's fields (JavaScript/Python dict
keys are unique, so first and last coincide on well-formed input). -/
def getField (fs : List (String × Json)) (k : String) : Option Json :=
  (fs.find? (fun p => p.1 = k)).map (·.2)

/-- Whether a JSON value is an object. -/
def Json.isObj : Json → Bool
  | .obj _ => true
  | _ => false

/-- Whether a JSON value is an array whose elements are all objects
("point-like records"). -/
def isArrOfObjs : Json → Bool
  | .arr xs => xs.all Json.isObj
  | _ => false

/-- Whether a JSON value is numeric for classification purposes: a number,
or a string that parses fully as a number (spec §4.1). -/
def isNumericValue : Json → Bool
  | .num _ => true
  | .str s => isNumericString s
  | _ => false

/-- Whether a string starts with an ISO-8601 `YYYY-MM-DD` date (optionally
followed by a time part). -/
def isISODate (s : String) : Bool :=
  match s.toList with
  | y1 :: y2 :: y3 :: y4 :: '-' :: m1 :: m2 :: '-' :: d1 :: d2 :: _ =>
      y1.isDigit && y2.isDigit && y3.isDigit && y4.isDigit &&
        m1.isDigit && m2.isDigit && d1.isDigit && d2.isDigit
  | _ => false

/-- Modelled from the spec: the temporal field-name set of §4.1
(`t`, `time`, `date`, `timestamp`, `x`, case-insensitively). -/
def temporalNames : List String := ["t", "time", "date", "timestamp", "x"]

/-- Modelled from the spec: the categorical field-name tie-break set of §4.1
(`label`/`category`/`name` force Categorical). -/
def categoricalNames : List String := ["label", "category", "name"]

/-- The Type Classifier's result kinds (spec §4.1). -/
inductive FieldKind where
  | temporal
  | numeric
  | categorical
  | unknown
  deriving DecidableEq, Repr

/-- Modelled from the spec: the Type Classifier of §4.1 applied to one
field's value; field-name hints break ties before value inspection
(a field named `label`/`category`/`name` is Categorical, a temporal-named
field is Temporal), then value inspection applies. -/
def classify (fieldName : String) (v : Json) : FieldKind :=
  if categoricalNames.contains (lowerStr fieldName) then .categorical
  else if temporalNames.contains (lowerStr fieldName) then .temporal
  else
    match v with
    | .str s =>
        if isISODate s then .temporal
        else if isNumericString s then .numeric
        else if s = "" then .unknown
        else .categorical
    | .num _ => .numeric
    | _ => .unknown

/-- Whether a record carries both a Temporal-classified field and a numeric
value field (the TimeSeries record shape of spec §4.2). -/
def recordTemporalNumeric : Json → Bool
  | .obj fs =>
      fs.any (fun p => classify p.1 p.2 = FieldKind.temporal) &&
        fs.any (fun p => isNumericValue p.2)
  | _ => false

/-- Modelled from the spec: Grid pattern match of §4.2 — array-valued
`rows` and `columns` keys, and `values` a sequence of sequences of
numbers. -/
def isGrid (fs : List (String × Json)) : Bool :=
  (match getField fs "rows" with | some (.arr _) => true | _ => false) &&
    (match getField fs "columns" with | some (.arr _) => true | _ => false) &&
    (match getField fs "values" with
     | some (.arr vss) =>
         vss.all (fun r =>
           match r with
           | .arr vs => vs.all isNumericValue
           | _ => false)
     | _ => false)

/-- Modelled from the spec: MultiSeries pattern match of §4.2 — a `series`
field holding a non-empty array of objects, each with a `name` and an array
of point-like records. -/
def isMultiSeries (fs : List (String × Json)) : Bool :=
  match getField fs "series" with
  | some (.arr es) =>
      !es.isEmpty &&
        es.all (fun e =>
          match e with
          | .obj efs =>
              (getField efs "name").isSome && efs.any (fun p => isArrOfObjs p.2)
          | _ => false)
  | _ => false

/-- Modelled from the spec: TimeSeries pattern match of §4.2 — a `points`
array whose records contain a Temporal field paired with a numeric value
field. -/
def isTimeSeries (fs : List (String × Json)) : Bool :=
  match getField fs "points" with
  | some (.arr pts) => pts.any recordTemporalNumeric
  | _ => false

/-- Modelled from the spec: CategoryValueArrays pattern match of §4.2 —
parallel `categories`/`labels` and `values` arrays of equal length. -/
def isCategoryValueArrays (fs : List (String × Json)) : Bool :=
  match (getField fs "categories").orElse (fun _ => getField fs "labels"),
      getField fs "values" with
  | some (.arr cs), some (.arr vs) => cs.length = vs.length && !cs.isEmpty
  | _, _ => false

/-- Modelled from the spec: Categorical pattern match of §4.2 — an `items`
array of records with a categorical field (`label`/`category`/`name`) and a
numeric `value` field. -/
def isCategoricalPat (fs : List (String × Json)) : Bool :=
  match getField fs "items" with
  | some (.arr its) =>
      its.any (fun r =>
        match r with
        | .obj rfs =>
            (categoricalNames.any (fun k => (getField rfs k).isSome)) &&
              (match getField rfs "value" with
               | some v => isNumericValue v
               | none => false)
        | _ => false)
  | _ => false

/-- `DetectedPattern` of spec §3. -/
inductive DetectedPattern where
  | timeSeries
  | categorical
  | multiSeries
  | categoryValueArrays
  | grid
  | unrecognized
  deriving DecidableEq, Repr

/-- Modelled from the spec: the Pattern Detector of §4.2, first structural
match wins in the fixed priority order Grid, MultiSeries, TimeSeries,
CategoryValueArrays, Categorical, else Unrecognized. -/
def detectPattern (j : Json) : DetectedPattern :=
  match j with
  | .obj fs =>
      if isGrid fs then .grid
      else if isMultiSeries fs then .multiSeries
      else if isTimeSeries fs then .timeSeries
      else if isCategoryValueArrays fs then .categoryValueArrays
      else if isCategoricalPat fs then .categorical
      else .unrecognized
  | _ => .unrecognized

/-- The pattern-match booleans returned by `validate` (spec §6). -/
structure PatternFlags where
  timeSeries : Bool
  categorical : Bool
  multiSeries : Bool
  categoryValueArrays : Bool
  grid : Bool
  deriving DecidableEq, Repr

/-- Modelled from the spec: `validate` of §6 — runs the Pattern Detector's
structural matchers only, reporting which patterns matched. -/
def validate (j : Json) : PatternFlags :=
  match j with
  | .obj fs =>
      ⟨isTimeSeries fs, isCategoricalPat fs, isMultiSeries fs,
        isCategoryValueArrays fs, isGrid fs⟩
  | _ => ⟨false, false, false, false, false⟩

/-- Days from the civil epoch (1970-01-01) for a Gregorian date; the
standard era-based civil-calendar formula (exact for years ≥ 1, the range
of ISO-8601 dates handled here). -/
def daysFromCivil (y m d : Int) : Int :=
  let y' := if m ≤ 2 then y - 1 else y
  let era := y' / 400
  let yoe := y' - era * 400
  let mp := (m + 9) % 12
  let doy := (153 * mp + 2) / 5 + d - 1
  let doe := yoe * 365 + yoe / 4 - yoe / 100 + doy
  era * 146097 + doe - 719468

/-- Modelled from the spec: §4.3 normalizes temporal x-values "to a numeric
epoch-millisecond representation"; millisecond timestamp of an ISO
`YYYY-MM-DD` date's midnight. -/
def epochMs (s : String) : Int :=
  match s.toList with
  | y1 :: y2 :: y3 :: y4 :: _ :: m1 :: m2 :: _ :: d1 :: d2 :: _ =>
      daysFromCivil (parseNat [y1, y2, y3, y4] : Int) (parseNat [m1, m2] : Int)
          (parseNat [d1, d2] : Int) * 86400000
  | _ => 0

/-- An x value of a normalized data pair (spec §3: `string|number|timestamp`,
timestamps already as epoch-millisecond numbers). -/
inductive XVal where
  | str (s : String)
  | num (n : Int)
  deriving DecidableEq, Repr

/-- `NormalizedSeries` of spec §3: a name and an ordered sequence of
(x, y) pairs. -/
structure NormalizedSeries where
  name : String
  points : List (XVal × Int)
  deriving DecidableEq, Repr

/-- Numeric reading of a JSON value (number, or fully numeric string). -/
def numOf : Json → Option Int
  | .num n => some n
  | .str s => if isNumericString s then some (parseInt s) else none
  | _ => none

/-- X-value reading of a JSON value: ISO date strings normalize to epoch
milliseconds, other strings and numbers pass through; non-scalar values are
unusable. -/
def xvalOf : Json → Option XVal
  | .str s => if isISODate s then some (.num (epochMs s)) else some (.str s)
  | .num n => some (.num n)
  | _ => none

/-- Modelled from the spec: per-record extraction of §4.3 — a record missing
the resolved x or y field, or carrying an unusable value there, is skipped
(returns `none`). -/
def recordPoint (xf yf : String) (r : Json) : Option (XVal × Int) :=
  match r with
  | .obj rfs =>
      match getField rfs xf, getField rfs yf with
      | some xv, some yv =>
          match xvalOf xv, numOf yv with
          | some x, some n => some (x, n)
          | _, _ => none
      | _, _ => none
  | _ => none

/-- First categorical key (`label`/`category`/`name`) present in any of the
given records, used for the Categorical pattern's conventional x field. -/
def firstCatKey (its : List Json) : Option String :=
  its.findSome? (fun r =>
    match r with
    | .obj rfs => categoricalNames.find? (fun k => (getField rfs k).isSome)
    | _ => none)

/-- Modelled from the spec: field resolution of §4.3 — explicit
`UserHints.x_field`/`y_field` override the pattern's conventional field
names (`t`/`value` for TimeSeries, `label`/`value` for Categorical, and so
on). -/
def resolveFields (fs : List (String × Json)) (p : DetectedPattern)
    (h : UserHints) : String × String :=
  match p with
  | .timeSeries => (h.x_field.getD "t", h.y_field.getD "value")
  | .multiSeries => (h.x_field.getD "t", h.y_field.getD "value")
  | .categorical =>
      (h.x_field.getD
        ((match getField fs "items" with
          | some (.arr its) => firstCatKey its
          | _ => none).getD "label"),
       h.y_field.getD "value")
  | .categoryValueArrays =>
      (h.x_field.getD
        (if (getField fs "categories").isSome then "categories" else "labels"),
       h.y_field.getD "values")
  | .grid => (h.x_field.getD "columns", h.y_field.getD "values")
  | .unrecognized =>
      match fs.find? (fun p => isArrOfObjs p.2) with
      | some (_, .arr ((.obj rfs) :: _)) =>
          (h.x_field.getD
            (((rfs.find? (fun q => !isNumericValue q.2)).map (·.1)).getD "label"),
           h.y_field.getD
            (((rfs.find? (fun q => isNumericValue q.2)).map (·.1)).getD "value"))
      | _ => (h.x_field.getD "label", h.y_field.getD "value")

/-- The label the grid extractor gives its `i`-th row series. -/
def gridRowName (rs : List Json) (i : Nat) : String :=
  match rs.get? i with
  | some (.str s) => s
  | _ => "Row " ++ toString (i + 1)

/-- Modelled from the spec: the Data Extractor of §4.3 — given the matched
pattern, pulls out the normalized series, skipping unusable records. -/
def extract (j : Json) (p : DetectedPattern) (h : UserHints) :
    List NormalizedSeries :=
  match j with
  | .obj fs =>
      let xf := (resolveFields fs p h).1
      let yf := (resolveFields fs p h).2
      match p with
      | .timeSeries =>
          match getField fs "points" with
          | some (.arr pts) => [⟨yf, pts.filterMap (recordPoint xf yf)⟩]
          | _ => []
      | .categorical =>
          match getField fs "items" with
          | some (.arr its) => [⟨yf, its.filterMap (recordPoint xf yf)⟩]
          | _ => []
      | .multiSeries =>
          match getField fs "series" with
          | some (.arr es) =>
              es.filterMap (fun e =>
                match e with
                | .obj efs =>
                    let nm :=
                      match getField efs "name" with
                      | some (.str s) => s
                      | _ => "Series"
                    match efs.find? (fun q => isArrOfObjs q.2) with
                    | some (_, .arr pts) =>
                        some ⟨nm, pts.filterMap (recordPoint xf yf)⟩
                    | _ => none
                | _ => none)
          | _ => []
      | .categoryValueArrays =>
          match (getField fs "categories").orElse (fun _ => getField fs "labels"),
              getField fs "values" with
          | some (.arr cs), some (.arr vs) =>
              [⟨yf,
                (cs.zip vs).filterMap (fun cv =>
                  match xvalOf cv.1, numOf cv.2 with
                  | some x, some n => some (x, n)
                  | _, _ => none)⟩]
          | _, _ => []
      | .grid =>
          match getField fs "values" with
          | some (.arr vss) =>
              let rs :=
                match getField fs "rows" with
                | some (.arr rs) => rs
                | _ => []
              vss.enum.filterMap (fun iv =>
                match iv.2 with
                | .arr vs =>
                    some ⟨gridRowName rs iv.1,
                      vs.enum.filterMap (fun jv =>
                        (numOf jv.2).map (fun n => (XVal.num (jv.1 : Int), n)))⟩
                | _ => none)
          | _ => []
      | .unrecognized =>
          match fs.find? (fun q => isArrOfObjs q.2) with
          | some (_, .arr pts) =>
              if pts.isEmpty then []
              else [⟨yf, pts.filterMap (recordPoint xf yf)⟩]
          | _ => []
  | _ => []

/-- Whether every MultiSeries record's x field is an ISO date string, the
"all sub-series are temporal" test of §4.4. -/
def multiAllTemporal (fs : List (String × Json)) (xf : String) : Bool :=
  match getField fs "series" with
  | some (.arr es) =>
      es.all (fun e =>
        match e with
        | .obj efs =>
            match efs.find? (fun q => isArrOfObjs q.2) with
            | some (_, .arr pts) =>
                pts.all (fun r =>
                  match r with
                  | .obj rfs =>
                      match getField rfs xf with
                      | some (.str s) => isISODate s
                      | _ => false
                  | _ => false)
            | _ => false
        | _ => false)
  | _ => false

/-- Modelled from the spec: the pattern-default mapping of §4.4
(chosen type and ordered alternatives; for MultiSeries the Line and Bar
roles swap with temporality). -/
def defaultChoice (p : DetectedPattern) (itemCount : Nat)
    (allTemporal : Bool) : ChartType × List ChartType :=
  match p with
  | .timeSeries => (.line, [.area, .column])
  | .categorical =>
      if itemCount = 1 then (.pie, [.column, .bar])
      else (.column, [.bar, .pie])
  | .multiSeries =>
      if allTemporal then (.line, [.area, .column])
      else (.bar, [.column, .line])
  | .categoryValueArrays => (.column, [.bar, .pie])
  | .grid => (.heatmap, [])
  | .unrecognized => (.column, [.bar])

/-- Modelled from the spec: the Chart Type Selector of §4.4 — an advisory
hint is honored when structurally compatible (`pie` is rejected outright
for more than one series), otherwise silently ignored; the alternatives
list excludes the chosen type and never exceeds two entries. -/
def chooseType (p : DetectedPattern) (seriesCount itemCount : Nat)
    (allTemporal : Bool) (hint : Option ChartType) :
    ChartType × List ChartType :=
  let dflt := defaultChoice p itemCount allTemporal
  match hint with
  | some t =>
      if t = ChartType.pie && seriesCount > 1 then dflt
      else (t, ((dflt.1 :: dflt.2).filter (fun a => a ≠ t)).take 2)
  | none => dflt

/-- `AxisSpec` on the engine's output side (spec §3's `AxisSpec`). -/
structure AxisDesc where
  title : String
  field : Option String
  type : String
  unit : Option String
  format : Option String
  min : Option Int
  max : Option Int
  deriving DecidableEq, Repr

/-- One output series of the engine's `ChartDescription` (spec §3: name,
formatted data, optional per-series color/type/secondary-axis index). -/
structure SeriesDesc where
  name : String
  data : List DataPoint
  type : Option String
  color : Option String
  y_axis : Option Nat
  deriving DecidableEq, Repr

/-- `ChartDescription` of spec §3, the engine's output contract. -/
structure ChartDescription where
  chart_type : ChartType
  title : String
  subtitle : Option String
  series : List SeriesDesc
  x_axis : AxisDesc
  y_axis : Option AxisDesc
  rationale : String
  alternative_types : List ChartType
  description : Option String
  config : List (String × PrimVal)
  deriving DecidableEq, Repr

/-- The dominant kind of the resolved x field, read from the first record
the pattern exposes (spec §4.5 "derived from the dominant Type Classifier
result on the corresponding series values"). -/
def xFieldKind (fs : List (String × Json)) (p : DetectedPattern)
    (xf : String) : FieldKind :=
  let firstRecords : List Json :=
    match p with
    | .timeSeries =>
        match getField fs "points" with | some (.arr pts) => pts | _ => []
    | .categorical =>
        match getField fs "items" with | some (.arr its) => its | _ => []
    | .multiSeries =>
        match getField fs "series" with
        | some (.arr ((.obj efs) :: _)) =>
            match efs.find? (fun q => isArrOfObjs q.2) with
            | some (_, .arr pts) => pts
            | _ => []
        | _ => []
    | .categoryValueArrays =>
        match (getField fs "categories").orElse (fun _ => getField fs "labels") with
        | some (.arr cs) => cs.map (fun c => Json.obj [(xf, c)])
        | _ => []
    | .grid => []
    | .unrecognized =>
        match fs.find? (fun q => isArrOfObjs q.2) with
        | some (_, .arr pts) => pts
        | _ => []
  match firstRecords with
  | r :: _ =>
      match r with
      | .obj rfs =>
          match getField rfs xf with
          | some v => classify xf v
          | none => .unknown
      | _ => .unknown
  | [] => .unknown

/-- The semantic axis type string for a classified kind
(spec §3: `linear|datetime|category|log`; §4.5: Temporal→`datetime`,
else `linear`/`category`; the `log` hint is not currently exposed). -/
def axisTypeOf : FieldKind → String
  | .temporal => "datetime"
  | .numeric => "linear"
  | .categorical => "category"
  | .unknown => "linear"

/-- Modelled from the spec: the Axis Builder of §4.5 — `x_axis` always;
`unit`/`format` copied from hint maps by field name; `min`/`max` left
unset. -/
def buildXAxisDesc (fs : List (String × Json)) (p : DetectedPattern)
    (h : UserHints) (xf : String) : AxisDesc :=
  { title := xf
    field := some xf
    type := axisTypeOf (xFieldKind fs p xf)
    unit := lookupLast xf h.units
    format := lookupLast xf h.formatting
    min := none
    max := none }

/-- Modelled from the spec: the Axis Builder of §4.5 — `y_axis` only when
the chosen type is not a proportion type (`pie`). -/
def buildYAxisDesc (chosen : ChartType) (h : UserHints) (yf : String) :
    Option AxisDesc :=
  if chosen = ChartType.pie then none
  else
    some
      { title := yf
        field := some yf
        type := "linear"
        unit := lookupLast yf h.units
        format := lookupLast yf h.formatting
        min := none
        max := none }

/-- String shown for an x value in a proportion chart's `name` slot. -/
def xvalName : XVal → String
  | .str s => s
  | .num n => toString n

/-- Modelled from the spec: the Series Formatter of §4.6 — proportion
charts receive `{name, y}` records, every other type `[x, y]` coordinate
pairs. -/
def formatSeries (chosen : ChartType) (ns : NormalizedSeries) : SeriesDesc :=
  { name := ns.name
    data :=
      if chosen = ChartType.pie then
        ns.points.map (fun q =>
          DataPoint.obj [("name", .str (xvalName q.1)), ("y", .num q.2)])
      else
        ns.points.map (fun q =>
          DataPoint.arr
            [match q.1 with | .str s => PrimVal.str s | .num n => PrimVal.num n,
             PrimVal.num q.2])
    type := none
    color := none
    y_axis := none }

/-- Human-readable name of a chart type (for titles and rationales). -/
def chartTypeLabel : ChartType → String
  | .line => "Line"
  | .bar => "Bar"
  | .column => "Column"
  | .pie => "Pie"
  | .area => "Area"
  | .scatter => "Scatter"
  | .heatmap => "Heatmap"

/-- Human-readable name of a detected pattern (for rationales). -/
def patternLabel : DetectedPattern → String
  | .timeSeries => "a time series"
  | .categorical => "a categorical breakdown"
  | .multiSeries => "multiple data series"
  | .categoryValueArrays => "parallel category and value arrays"
  | .grid => "a two-dimensional grid"
  | .unrecognized => "loosely structured records"

/-- Modelled from the spec: the Rationale Generator of §4.7 — one fixed,
deterministic template per chosen type, referencing the chosen type, the
detected pattern's human name and the series count. -/
def rationaleFor (chosen : ChartType) (p : DetectedPattern) (n : Nat) :
    String :=
  chartTypeLabel chosen ++ " chart selected because data appears to be " ++
    patternLabel p ++ " with " ++ toString n ++ " series." ++
    (match chosen with
     | .line => " Line charts are ideal for showing trends over time."
     | .area => " Area charts emphasize magnitude of change over time."
     | .pie => " Pie charts show proportions of a whole."
     | .column => " Column charts compare values across categories."
     | .bar => " Bar charts compare values across categories."
     | .scatter => " Scatter charts reveal relationships between variables."
     | .heatmap => " Heatmaps visualize values across two dimensions.")

/-- `ValidationError` of spec §7, the only engine-raised condition. -/
structure ValidationError where
  message : String
  deriving DecidableEq, Repr

/-- Modelled from the spec: `infer` of §6 — the pure inference pipeline
Pattern Detector → Data Extractor → {Chart Type Selector, Axis Builder} →
Series Formatter → Rationale Generator → assembled `ChartDescription`;
it fails with a `ValidationError` when no pattern yields usable data
points (a series whose records were all skipped also fails, §4.3). -/
def infer (data : Json) (hints : UserHints) :
    Except ValidationError ChartDescription :=
  let pat := detectPattern data
  let series := extract data pat hints
  if series.isEmpty || series.any (fun s => s.points.isEmpty) then
    .error ⟨"No usable data points found in input"⟩
  else
    let fs := match data with | .obj fs => fs | _ => []
    let xf := (resolveFields fs pat hints).1
    let yf := (resolveFields fs pat hints).2
    let itemCount := (series.head?.map (fun s => s.points.length)).getD 0
    let choice :=
      chooseType pat series.length itemCount (multiAllTemporal fs xf)
        hints.preferred_chart_type
    .ok
      { chart_type := choice.1
        title := chartTypeLabel choice.1 ++ " Chart"
        subtitle := none
        series := series.map (formatSeries choice.1)
        x_axis := buildXAxisDesc fs pat hints xf
        y_axis := buildYAxisDesc choice.1 hints yf
        rationale := rationaleFor choice.1 pat series.length
        alternative_types := choice.2
        description := none
        config := [] }

/-- Whether an inference run succeeded. -/
def inferOk (r : Except ValidationError ChartDescription) : Bool :=
  match r with
  | .ok _ => true
  | .error _ => false

/-- Whether a data point is a length-≥ 2 array (an `[x, y]` coordinate
pair, possibly with extra entries). -/
def isPairPoint : DataPoint → Bool
  | .arr (_ :: _ :: _) => true
  | _ => false

/-! ## Concrete specimens used by counterexamples and witnesses -/

/-- The time-series scenario input of spec §8. -/
def tsInput : Json :=
  .obj [("points", .arr [
    .obj [("t", .str "2025-12-01"), ("value", .num 10)],
    .obj [("t", .str "2025-12-02"), ("value", .num 15)]])]

/-- A non-pie `ChartSpec` whose single data point is a bare number. -/
def c2spec : ChartSpec :=
  { chart_type := .line, title := "T", subtitle := none,
    series := [⟨"s", [DataPoint.num 5], none, none, 0⟩],
    x_axis := ⟨"X", none, "linear", none, none, none, none⟩, y_axis := none,
    rationale := "", alternative_types := [], description := none,
    config := [] }

/-- A pie `ChartSpec` whose `config` passthrough sets an `xAxis` key. -/
def c3spec : ChartSpec :=
  { chart_type := .pie, title := "T", subtitle := none,
    series := [⟨"s", [DataPoint.obj [("name", .str "A"), ("y", .num 1)]], none, none, 0⟩],
    x_axis := ⟨"X", none, "category", none, none, none, none⟩, y_axis := none,
    rationale := "", alternative_types := [], description := none,
    config := [("xAxis", .num 5)] }

/-- A non-pie `ChartSpec` with a datetime x-axis, bounds, and a y-axis with
a unit, exercising the axis mapping. -/
def w4spec : ChartSpec :=
  { chart_type := .line, title := "T", subtitle := none,
    series := [⟨"s", [DataPoint.arr [.num 1, .num 2]], none, none, 0⟩],
    x_axis := ⟨"Time", none, "datetime", none, none, some 1, none⟩,
    y_axis := some ⟨"Load", none, "datetime", some "ms", none, none, some 9⟩,
    rationale := "", alternative_types := [], description := none,
    config := [] }

/-- A `ChartSpec` whose `config` passthrough overrides the computed
`title` entry. -/
def w8spec : ChartSpec :=
  { chart_type := .column, title := "T", subtitle := none,
    series := [], x_axis := ⟨"X", none, "category", none, none, none, none⟩,
    y_axis := none, rationale := "", alternative_types := [],
    description := none, config := [("title", .str "override")] }

/-- A non-pie `ChartSpec` with two series of unequal lengths and one
unusable point, exercising the tabular fallback. -/
def w10spec : ChartSpec :=
  { chart_type := .column, title := "T", subtitle := none,
    series := [⟨"a", [DataPoint.arr [.str "x1", .num 1],
                      DataPoint.obj [("q", .num 0)],
                      DataPoint.arr [.str "x3", .num 3]], none, none, 0⟩,
               ⟨"b", [DataPoint.num 7], none, none, 0⟩],
    x_axis := ⟨"X", none, "category", none, none, none, none⟩, y_axis := none,
    rationale := "", alternative_types := [], description := none,
    config := [] }

/-- A non-pie `ChartSpec` with no series at all. -/
def w10empty : ChartSpec :=
  { chart_type := .line, title := "T", subtitle := none, series := [],
    x_axis := ⟨"X", none, "linear", none, none, none, none⟩, y_axis := none,
    rationale := "", alternative_types := [], description := none,
    config := [] }

/-- A pie `ChartSpec` whose first series mixes conforming and
non-conforming points. -/
def w10pie : ChartSpec :=
  { chart_type := .pie, title := "T", subtitle := none,
    series := [⟨"s", [DataPoint.obj [("name", .str "A"), ("y", .num 1)],
                      DataPoint.num 3,
                      DataPoint.obj [("name", .str "B")],
                      DataPoint.obj [("name", .str "C"), ("y", .num 2)]], none, none, 0⟩],
    x_axis := ⟨"X", none, "category", none, none, none, none⟩, y_axis := none,
    rationale := "", alternative_types := [], description := none,
    config := [] }

/-! ## Helper lemmas -/

theorem lookupLast_append {α : Type} (k : String) (l₁ l₂ : List (String × α)) :
    lookupLast k (l₁ ++ l₂) =
      match lookupLast k l₂ with
      | some v => some v
      | none => lookupLast k l₁ := by
  induction l₁ with
  | nil => cases h : lookupLast k l₂ <;> simp [lookupLast, h]
  | cons p rest ih =>
      simp only [List.cons_append, lookupLast, List.append_eq]
      rw [ih]
      cases h₂ : lookupLast k l₂ <;> simp [lookupLast]

theorem lookupLast_map {α β : Type} (k : String) (g : α → β)
    (l : List (String × α)) :
    lookupLast k (l.map (fun p => (p.1, g p.2))) = (lookupLast k l).map g := by
  induction l with
  | nil => rfl
  | cons p rest ih =>
      simp only [List.map_cons, lookupLast, ih]
      cases lookupLast k rest <;> simp

theorem lookupLast_of_forall_ne {α : Type} (k : String)
    (l : List (String × α)) (h : ∀ p ∈ l, p.1 ≠ k) : lookupLast k l = none := by
  induction l with
  | nil => rfl
  | cons p rest ih =>
      simp only [lookupLast, ih (fun q hq => h q (List.mem_cons_of_mem p hq))]
      simp [h p (List.mem_cons_self p rest)]

theorem foldl_append_cells {α β : Type} (f : α → List β) (l : List α)
    (init : List β) :
    l.foldl (fun acc a => acc ++ f a) init = init ++ (l.map f).flatten := by
  induction l generalizing init with
  | nil => simp
  | cons a rest ih => simp [List.foldl_cons, ih, List.append_assoc]

theorem length_filterMap_id_map {α β : Type} (f : α → Option β) (l : List α) :
    ((l.map f).filterMap id).length = l.countP (fun a => (f a).isSome) := by
  rw [List.filterMap_map, Function.id_comp]
  induction l with
  | nil => rfl
  | cons a rest ih =>
      cases h : f a <;>
        simp [List.filterMap_cons, List.countP_cons, h, ih]

theorem pointCells_keys (xt sn : String) (o : Option DataPoint) :
    ∀ q ∈ pointCells xt sn o, q.1 = xt ∨ q.1 = sn := by
  intro q hq
  cases o with
  | none => simp [pointCells] at hq
  | some p =>
      cases p with
      | obj fs => simp [pointCells] at hq
      | num n =>
          simp [pointCells] at hq
          right
          rw [hq]
      | arr es =>
          rcases es with _ | ⟨e0, _ | ⟨e1, rest⟩⟩
          · simp [pointCells] at hq
          · simp [pointCells] at hq
          · simp [pointCells] at hq
            rcases hq with h | h
            · left; rw [h]
            · right; rw [h]

theorem flatten_cells_keys (xt : String) (i : Nat) (l : List SeriesSpec) :
    ∀ q ∈ (l.map (fun s => pointCells xt s.name (s.data.get? i))).flatten,
      q.1 = xt ∨ q.1 ∈ l.map SeriesSpec.name := by
  intro q hq
  rw [List.mem_flatten] at hq
  obtain ⟨c, hc, hqc⟩ := hq
  rw [List.mem_map] at hc
  obtain ⟨s, hs, rfl⟩ := hc
  rcases pointCells_keys xt s.name (s.data.get? i) q hqc with h | h
  · exact Or.inl h
  · exact Or.inr (h ▸ List.mem_map_of_mem SeriesSpec.name hs)

theorem lookupLast_cells_flatten (xt : String) (i : Nat) (l : List SeriesSpec)
    (s : SeriesSpec) (hs : s ∈ l) (hnd : (l.map SeriesSpec.name).Nodup)
    (hxt : xt ∉ l.map SeriesSpec.name) :
    lookupLast s.name
        ((l.map (fun s' => pointCells xt s'.name (s'.data.get? i))).flatten) =
      lookupLast s.name (pointCells xt s.name (s.data.get? i)) := by
  induction l with
  | nil => cases hs
  | cons a rest ih =>
      simp only [List.map_cons, List.flatten_cons]
      rw [lookupLast_append]
      have hnd' := List.nodup_cons.mp hnd
      have hxt1 : xt ≠ a.name := by
        intro he
        apply hxt
        rw [List.map_cons, he]
        exact List.mem_cons_self _ _
      have hxt2 : xt ∉ rest.map SeriesSpec.name := by
        intro he
        apply hxt
        rw [List.map_cons]
        exact List.mem_cons_of_mem _ he
      rcases List.mem_cons.mp hs with rfl | hsr
      · have hrest : lookupLast s.name
            ((rest.map (fun s' => pointCells xt s'.name (s'.data.get? i))).flatten) = none := by
          apply lookupLast_of_forall_ne
          intro q hq
          rcases flatten_cells_keys xt i rest q hq with h | h
          · rw [h]
            exact fun he => hxt1 he
          · intro he
            rw [he] at h
            exact hnd'.1 h
        rw [hrest]
      · have hsname : s.name ∈ rest.map SeriesSpec.name :=
          List.mem_map_of_mem SeriesSpec.name hsr
        have hih := ih hsr hnd'.2 hxt2
        rw [hih]
        cases hv : lookupLast s.name (pointCells xt s.name (s.data.get? i)) with
        | some v => rfl
        | none =>
            have hhead : lookupLast s.name
                (pointCells xt a.name (a.data.get? i)) = none := by
              apply lookupLast_of_forall_ne
              intro q hq
              rcases pointCells_keys xt a.name (a.data.get? i) q hq with h | h
              · rw [h]
                intro he
                rw [he] at hxt2
                exact hxt2 hsname
              · rw [h]
                intro he
                rw [he] at hnd'
                exact hnd'.1 hsname
            exact hhead

theorem lookupLast_buildRow (spec : ChartSpec) (i : Nat) (s : SeriesSpec)
    (hs : s ∈ spec.series)
    (hnd : (spec.series.map SeriesSpec.name).Nodup)
    (hxt : spec.x_axis.title ∉ spec.series.map SeriesSpec.name) :
    lookupLast s.name (buildRow spec i) =
      lookupLast s.name (pointCells spec.x_axis.title s.name (s.data.get? i)) := by
  unfold buildRow
  rw [foldl_append_cells]
  simp only [List.nil_append]
  exact lookupLast_cells_flatten spec.x_axis.title i spec.series s hs hnd hxt

theorem lookupLast_pointCells_iff (xt sn : String) (o : Option DataPoint)
    (v : PrimVal) :
    lookupLast sn (pointCells xt sn o) = some v ↔
      (∃ e0 rest, o = some (DataPoint.arr (e0 :: v :: rest))) ∨
      (∃ n, o = some (DataPoint.num n) ∧ v = PrimVal.num n) := by
  cases o with
  | none => simp [pointCells, lookupLast]
  | some p =>
      cases p with
      | obj fs => simp [pointCells, lookupLast]
      | num n => simp [pointCells, lookupLast, eq_comm]
      | arr es =>
          rcases es with _ | ⟨e0, _ | ⟨e1, rest⟩⟩
          · simp [pointCells, lookupLast]
          · simp [pointCells, lookupLast]
          · simp [pointCells, lookupLast, eq_comm]

/-! ## Claim theorems -/

/-- C1 (counterexample): the consumer-side `ChartSpec` schema does NOT
agree field-for-field with the `ChartDescription` contract of spec §3 —
the TypeScript `SeriesSpec` declares `y_axis: number` as required, while
spec §3 lists the per-series secondary-axis index among the optional
attributes. -/
theorem claim_C1_counterexample :
    ¬(fieldsAgree chartSpecFields chartDescriptionFields = true ∧
      fieldsAgree seriesSpecFields seriesDescriptionFields = true ∧
      fieldsAgree axisSpecFields axisDescriptionFields = true) ∧
    fieldOpt seriesSpecFields "y_axis" = some Optionality.required ∧
    fieldOpt seriesDescriptionFields "y_axis" = some Optionality.optional := by
  decide

/-- C1 (amended): the TypeScript `ChartSpec` and `AxisSpec` interfaces
agree field-for-field with the spec-§3 `ChartDescription`/`AxisSpec`
contract, and the series schemas agree on every field except the
secondary-axis index: both declare exactly `name`, `data`, `type`,
`color`, `y_axis`, with the same optionality everywhere but `y_axis`,
which TypeScript declares required while spec §3 lists it as optional. -/
theorem claim_C1_amended :
    fieldsAgree chartSpecFields chartDescriptionFields = true ∧
    fieldsAgree axisSpecFields axisDescriptionFields = true ∧
    (seriesSpecFields.all (fun f =>
      f.name = "y_axis" ||
        decide (fieldOpt seriesDescriptionFields f.name = some f.opt))) = true ∧
    (seriesDescriptionFields.all (fun f =>
      f.name = "y_axis" ||
        decide (fieldOpt seriesSpecFields f.name = some f.opt))) = true ∧
    fieldOpt seriesSpecFields "y_axis" = some Optionality.required ∧
    fieldOpt seriesDescriptionFields "y_axis" = some Optionality.optional := by
  decide

/-- C5: `infer` is deterministic — two calls with identical input and
hints yield identical results (the engine model is a pure function of its
two arguments; it takes no randomness or clock input). -/
theorem claim_C5 (d₁ d₂ : Json) (h₁ h₂ : UserHints) (hd : d₁ = d₂)
    (hh : h₁ = h₂) (r₁ r₂ : Except ValidationError ChartDescription)
    (e₁ : infer d₁ h₁ = r₁) (e₂ : infer d₂ h₂ = r₂) : r₁ = r₂ := by
  subst hd; subst hh; subst e₁; subst e₂; rfl

/-- Witness for C5 at the spec-§8 time-series input (on which `infer`
succeeds). -/
theorem claim_C5_witness :
    infer tsInput UserHints.none' = infer tsInput UserHints.none' ∧
    inferOk (infer tsInput UserHints.none') = true :=
  ⟨claim_C5 tsInput tsInput UserHints.none' UserHints.none' rfl rfl
      (infer tsInput UserHints.none') (infer tsInput UserHints.none') rfl rfl,
   by decide⟩

/-- C6: for the empty-object input `{}`, `infer` fails with a
`ValidationError` carrying a human-readable message (whatever the hints),
and `validate` returns all pattern flags false. -/
theorem claim_C6 :
    (∀ h : UserHints,
      infer (Json.obj []) h = .error ⟨"No usable data points found in input"⟩) ∧
    "No usable data points found in input" ≠ "" ∧
    validate (Json.obj []) = ⟨false, false, false, false, false⟩ :=
  ⟨fun _ => rfl, by decide, rfl⟩

/-- C8: `spec.config` is spread last when assembling the Highcharts
options, so any key bound in the config map (including converter-computed
keys such as `chart`, `series`, `xAxis`, `yAxis`, `title`) reads back as
the config's value, entirely replacing the converter-generated entry. -/
theorem claim_C8 (spec : ChartSpec) (k : String) (v : PrimVal)
    (h : lookupLast k spec.config = some v) :
    getOpt k (chartSpecToHighcharts spec) = HValue.confV v := by
  have hm : lookupLast k (spec.config.map (fun p => (p.1, HValue.confV p.2))) =
      some (HValue.confV v) := by
    rw [lookupLast_map, h]; rfl
  unfold getOpt chartSpecToHighcharts
  rw [lookupLast_append, hm]
  rfl

/-- Witness for C8: a config binding for the computed `title` key replaces
the converter-generated title entry. -/
theorem claim_C8_witness :
    lookupLast "title" w8spec.config = some (PrimVal.str "override") ∧
    getOpt "title" (chartSpecToHighcharts w8spec) =
      HValue.confV (PrimVal.str "override") :=
  ⟨by decide, claim_C8 w8spec "title" (PrimVal.str "override") (by decide)⟩

/-- C3 (counterexample): a pie `ChartSpec` whose `config` binds `xAxis`
yields options whose `xAxis` entry is the config value, not `undefined` —
so the claim's unconditional "for pie both xAxis and yAxis are undefined"
fails once the config passthrough is involved. -/
theorem claim_C3_counterexample :
    c3spec.chart_type = ChartType.pie ∧
    getOpt "xAxis" (chartSpecToHighcharts c3spec) = HValue.confV (PrimVal.num 5) ∧
    getOpt "xAxis" (chartSpecToHighcharts c3spec) ≠ HValue.undef := by
  decide

/-- C3 (amended): provided the config passthrough does not itself bind
`xAxis` or `yAxis`, a pie `ChartSpec` yields options with both axis
entries `undefined`, and any other chart type yields an `xAxis` entry
always and a `yAxis` entry exactly when `spec.y_axis` is non-null. -/
theorem claim_C3_amended (spec : ChartSpec)
    (hx : lookupLast "xAxis" spec.config = none)
    (hy : lookupLast "yAxis" spec.config = none) :
    (spec.chart_type = ChartType.pie →
      getOpt "xAxis" (chartSpecToHighcharts spec) = HValue.undef ∧
      getOpt "yAxis" (chartSpecToHighcharts spec) = HValue.undef) ∧
    (spec.chart_type ≠ ChartType.pie →
      (∃ a, getOpt "xAxis" (chartSpecToHighcharts spec) = HValue.xAxisV [a]) ∧
      (spec.y_axis ≠ none ↔
        ∃ a, getOpt "yAxis" (chartSpecToHighcharts spec) = HValue.yAxisV [a])) := by
  have hmx : lookupLast "xAxis" (spec.config.map (fun p => (p.1, HValue.confV p.2))) = none := by
    rw [lookupLast_map, hx]; rfl
  have hmy : lookupLast "yAxis" (spec.config.map (fun p => (p.1, HValue.confV p.2))) = none := by
    rw [lookupLast_map, hy]; rfl
  have exA : getOpt "xAxis" (chartSpecToHighcharts spec) =
      (match buildXAxis spec with
       | some a => HValue.xAxisV [a]
       | none => HValue.undef) := by
    unfold getOpt chartSpecToHighcharts
    rw [lookupLast_append, hmx]
    rfl
  have exB : getOpt "yAxis" (chartSpecToHighcharts spec) =
      (match buildYAxis spec with
       | some a => HValue.yAxisV [a]
       | none => HValue.undef) := by
    unfold getOpt chartSpecToHighcharts
    rw [lookupLast_append, hmy]
    rfl
  constructor
  · intro hp
    have hxa : buildXAxis spec = none := by simp [buildXAxis, hp]
    have hya : buildYAxis spec = none := by
      unfold buildYAxis
      cases spec.y_axis <;> simp [hp]
    rw [exA, hxa, exB, hya]
    exact ⟨rfl, rfl⟩
  · intro hp
    have hxa : buildXAxis spec =
        some
          { titleText := spec.x_axis.title
            type :=
              if spec.x_axis.type = "datetime" then "datetime"
              else if spec.x_axis.type = "log" then "logarithmic"
              else if spec.x_axis.type = "category" then "category"
              else "linear"
            min := spec.x_axis.min
            max := spec.x_axis.max } := by
      simp [buildXAxis, hp]
    refine ⟨⟨_, by rw [exA, hxa]⟩, ?_⟩
    cases hys : spec.y_axis with
    | none =>
        have hyb : buildYAxis spec = none := by simp [buildYAxis, hys]
        rw [exB, hyb]
        simp
    | some ax =>
        have hyb : buildYAxis spec =
            some
              { titleText :=
                  ax.title ++
                    (match ax.unit with
                     | some u => if u = "" then "" else " (" ++ u ++ ")"
                     | none => "")
                type :=
                  if ax.type = "log" then "logarithmic"
                  else if ax.type = "category" then "category"
                  else "linear"
                min := ax.min
                max := ax.max } := by
          simp [buildYAxis, hys, hp]
        rw [exB, hyb]
        simp

/-- Witness for C3 (amended) at a non-pie spec with empty config and a
present y-axis. -/
theorem claim_C3_amended_witness :
    w4spec.chart_type ≠ ChartType.pie ∧
    (∃ a, getOpt "xAxis" (chartSpecToHighcharts w4spec) = HValue.xAxisV [a]) ∧
    (w4spec.y_axis ≠ none ↔
      ∃ a, getOpt "yAxis" (chartSpecToHighcharts w4spec) = HValue.yAxisV [a]) :=
  ⟨by decide, (claim_C3_amended w4spec (by decide) (by decide)).2 (by decide)⟩

/-- C4: for a non-pie spec, the built x-axis maps the semantic type
`datetime`/`log`/`category` to `datetime`/`logarithmic`/`category` and
everything else (including `linear`) to `linear`, passes `min`/`max`
through unchanged, and the built y-axis title is the title followed by the
unit in parentheses when a (truthy) unit is set, otherwise the bare
title. -/
theorem claim_C4 (spec : ChartSpec) (h : spec.chart_type ≠ ChartType.pie) :
    ((spec.x_axis.type = "datetime" →
        (buildXAxis spec).map AxisOptions.type = some "datetime") ∧
     (spec.x_axis.type = "log" →
        (buildXAxis spec).map AxisOptions.type = some "logarithmic") ∧
     (spec.x_axis.type = "category" →
        (buildXAxis spec).map AxisOptions.type = some "category") ∧
     (spec.x_axis.type ≠ "datetime" → spec.x_axis.type ≠ "log" →
        spec.x_axis.type ≠ "category" →
        (buildXAxis spec).map AxisOptions.type = some "linear")) ∧
    ((buildXAxis spec).map AxisOptions.min = some spec.x_axis.min ∧
     (buildXAxis spec).map AxisOptions.max = some spec.x_axis.max) ∧
    (∀ ax : AxisSpec, spec.y_axis = some ax →
      ((∀ u, ax.unit = some u → u ≠ "" →
          (buildYAxis spec).map AxisOptions.titleText =
            some (ax.title ++ " (" ++ u ++ ")")) ∧
       (ax.unit = none →
          (buildYAxis spec).map AxisOptions.titleText = some ax.title) ∧
       (ax.unit = some "" →
          (buildYAxis spec).map AxisOptions.titleText = some ax.title))) := by
  refine ⟨⟨?_, ?_, ?_, ?_⟩, ⟨?_, ?_⟩, ?_⟩
  · intro he; simp [buildXAxis, h, he]
  · intro he; simp [buildXAxis, h, he]
  · intro he; simp [buildXAxis, h, he]
  · intro h1 h2 h3; simp [buildXAxis, h, h1, h2, h3]
  · simp [buildXAxis, h]
  · simp [buildXAxis, h]
  · intro ax hax
    refine ⟨?_, ?_, ?_⟩
    · intro u hu hne
      simp [buildYAxis, hax, h, hu, hne, String.append_assoc]
    · intro hu; simp [buildYAxis, hax, h, hu]
    · intro hu; simp [buildYAxis, hax, h, hu]

/-- Witness for C4 at a concrete non-pie spec with a datetime x-axis, a
`min` bound and a y-axis unit. -/
theorem claim_C4_witness :
    w4spec.chart_type ≠ ChartType.pie ∧
    (buildXAxis w4spec).map AxisOptions.type = some "datetime" ∧
    (buildXAxis w4spec).map AxisOptions.min = some (some 1) ∧
    (buildXAxis w4spec).map AxisOptions.max = some none ∧
    (buildYAxis w4spec).map AxisOptions.titleText = some "Load (ms)" := by
  have t := claim_C4 w4spec (by decide)
  exact ⟨by decide, t.1.1 rfl, t.2.1.1, t.2.1.2,
    (t.2.2 ⟨"Load", none, "datetime", some "ms", none, none, some 9⟩ rfl).1
      "ms" rfl (by decide)⟩

/-- C9: the converter's axis-type mapping is asymmetric — a y-axis with
semantic type `datetime` is emitted as `linear` (the y branch only
distinguishes `log` and `category`), while the same semantic type on the
x-axis is emitted as `datetime`. -/
theorem claim_C9 (spec : ChartSpec) (ax : AxisSpec)
    (h : spec.chart_type ≠ ChartType.pie) (hy : spec.y_axis = some ax)
    (hdt : ax.type = "datetime") :
    (buildYAxis spec).map AxisOptions.type = some "linear" ∧
    (spec.x_axis.type = "datetime" →
      (buildXAxis spec).map AxisOptions.type = some "datetime") := by
  constructor
  · simp [buildYAxis, hy, h, hdt]
  · intro hx; simp [buildXAxis, h, hx]

/-- Witness for C9 at a concrete spec with `datetime` on both axes. -/
theorem claim_C9_witness :
    (buildYAxis w4spec).map AxisOptions.type = some "linear" ∧
    (buildXAxis w4spec).map AxisOptions.type = some "datetime" := by
  have t := claim_C9 w4spec ⟨"Load", none, "datetime", some "ms", none, none, some 9⟩
    (by decide) rfl rfl
  exact ⟨t.1, t.2 rfl⟩

/-- C2 (counterexample): in ChartDisplay's table fallback a non-pie series
whose data point is a bare number still populates the series' cell, so
non-pie data points are not treated (exclusively) as `[x, y]` coordinate
pairs — a third accepted shape exists. -/
theorem claim_C2_counterexample :
    c2spec.chart_type ≠ ChartType.pie ∧
    (c2spec.series.headD ⟨"", [], none, none, 0⟩).data = [DataPoint.num 5] ∧
    isPairPoint (DataPoint.num 5) = false ∧
    lookupLast "s" ((seriesTable c2spec).getD 0 []) = some (PrimVal.num 5) := by
  decide

/-- C2 (amended): the frontend's shape split by chart type, as the code
implements it — `chartSpecToHighcharts` passes series data through
unchanged for every chart type (its pie/non-pie distinction is a
compile-time cast only); ChartDisplay's table fallback treats pie points
as `{name, y}` records, and for every other chart type treats points as
`[x, y]` coordinate pairs while additionally accepting bare numeric
points as y-values. -/
theorem claim_C2_amended :
    (∀ (t : ChartType) (s : SeriesSpec), (buildSeriesOptions t s).data = s.data) ∧
    (∀ (spec : ChartSpec) (r : PieRow), spec.chart_type = ChartType.pie →
      (r ∈ pieTable spec ↔
        ∃ s₀ rest, spec.series = s₀ :: rest ∧ ∃ p ∈ s₀.data, pieCell p = some r)) ∧
    (∀ (spec : ChartSpec) (i : Nat) (s : SeriesSpec) (v : PrimVal),
      spec.chart_type ≠ ChartType.pie →
      s ∈ spec.series →
      (spec.series.map SeriesSpec.name).Nodup →
      spec.x_axis.title ∉ spec.series.map SeriesSpec.name →
      (lookupLast s.name (buildRow spec i) = some v ↔
        (∃ e0 rest, s.data.get? i = some (DataPoint.arr (e0 :: v :: rest))) ∨
        (∃ n, s.data.get? i = some (DataPoint.num n) ∧ v = PrimVal.num n))) := by
  refine ⟨fun t s => rfl, ?_, ?_⟩
  · intro spec r _
    cases hs : spec.series with
    | nil => simp [pieTable, hs]
    | cons s₀ rest =>
        simp only [pieTable, hs, List.filterMap_map, Function.id_comp]
        simp [List.mem_filterMap]
  · intro spec i s v _ hs hnd hxt
    rw [lookupLast_buildRow spec i s hs hnd hxt]
    exact lookupLast_pointCells_iff spec.x_axis.title s.name (s.data.get? i) v

/-- Witness for C2 (amended) at concrete pie and non-pie specs. -/
theorem claim_C2_amended_witness :
    (buildSeriesOptions ChartType.line ⟨"s", [DataPoint.num 5], none, none, 0⟩).data =
      [DataPoint.num 5] ∧
    ((⟨"A", JsNum.int 1⟩ : PieRow) ∈ pieTable w10pie ↔
      ∃ s₀ rest, w10pie.series = s₀ :: rest ∧
        ∃ p ∈ s₀.data, pieCell p = some ⟨"A", JsNum.int 1⟩) ∧
    (lookupLast "a" (buildRow w10spec 0) = some (PrimVal.num 1) ↔
      (∃ e0 rest,
        (⟨"a", [DataPoint.arr [.str "x1", .num 1],
                DataPoint.obj [("q", .num 0)],
                DataPoint.arr [.str "x3", .num 3]], none, none, 0⟩ : SeriesSpec).data.get? 0 =
          some (DataPoint.arr (e0 :: PrimVal.num 1 :: rest))) ∨
      (∃ n,
        (⟨"a", [DataPoint.arr [.str "x1", .num 1],
                DataPoint.obj [("q", .num 0)],
                DataPoint.arr [.str "x3", .num 3]], none, none, 0⟩ : SeriesSpec).data.get? 0 =
          some (DataPoint.num n) ∧ PrimVal.num 1 = PrimVal.num n)) := by
  have t := claim_C2_amended
  exact ⟨t.1 ChartType.line ⟨"s", [DataPoint.num 5], none, none, 0⟩,
    t.2.1 w10pie ⟨"A", JsNum.int 1⟩ rfl,
    t.2.2 w10spec 0
      ⟨"a", [DataPoint.arr [.str "x1", .num 1],
             DataPoint.obj [("q", .num 0)],
             DataPoint.arr [.str "x3", .num 3]], none, none, 0⟩
      (PrimVal.num 1) (by decide) (by decide) (by decide) (by decide)⟩

/-- C10: ChartDisplay's tabular fallback is total — for non-pie specs it
produces exactly one row per index up to the longest series' length, an
empty series list yields an empty table, a series with no usable point at
an index simply contributes no cell, and for pie specs non-`{name, y}`
points are filtered out (one table row per conforming point). -/
theorem claim_C10 :
    (∀ spec : ChartSpec, spec.chart_type ≠ ChartType.pie →
      (seriesTable spec).length = maxLen spec) ∧
    (∀ spec : ChartSpec, spec.chart_type ≠ ChartType.pie →
      spec.series = [] → seriesTable spec = []) ∧
    (∀ (spec : ChartSpec) (i : Nat) (s : SeriesSpec),
      spec.chart_type ≠ ChartType.pie →
      s ∈ spec.series →
      (spec.series.map SeriesSpec.name).Nodup →
      spec.x_axis.title ∉ spec.series.map SeriesSpec.name →
      (∀ p, s.data.get? i = some p →
        isPairPoint p = false ∧ ∀ n, p ≠ DataPoint.num n) →
      lookupLast s.name (buildRow spec i) = none) ∧
    (∀ spec : ChartSpec, spec.chart_type = ChartType.pie →
      (pieTable spec).length =
        (match spec.series with
         | [] => 0
         | s :: _ => s.data.countP (fun p => (pieCell p).isSome))) := by
  refine ⟨?_, ?_, ?_, ?_⟩
  · intro spec _
    simp [seriesTable]
  · intro spec _ hser
    simp [seriesTable, maxLen, hser]
  · intro spec i s _ hs hnd hxt hshape
    rw [lookupLast_buildRow spec i s hs hnd hxt]
    cases ho : s.data.get? i with
    | none => rfl
    | some p =>
        have hp := hshape p ho
        cases p with
        | obj fs => rfl
        | num n => exact absurd rfl (hp.2 n)
        | arr es =>
            rcases es with _ | ⟨e0, _ | ⟨e1, rest⟩⟩
            · rfl
            · rfl
            · exact absurd hp.1 (by simp [isPairPoint])
  · intro spec _
    unfold pieTable
    cases spec.series with
    | nil => rfl
    | cons s rest => exact length_filterMap_id_map pieCell s.data

/-- Witness for C10 at concrete specs: a two-series table with unequal
lengths, an empty-series spec, a cell omitted for an unusable point, and a
pie table that drops non-conforming points. -/
theorem claim_C10_witness :
    (seriesTable w10spec).length = maxLen w10spec ∧
    seriesTable w10empty = [] ∧
    lookupLast "b" (buildRow w10spec 1) = none ∧
    (pieTable w10pie).length =
      (match w10pie.series with
       | [] => 0
       | s :: _ => s.data.countP (fun p => (pieCell p).isSome)) := by
  have t := claim_C10
  refine ⟨t.1 w10spec (by decide), t.2.1 w10empty (by decide) rfl, ?_, t.2.2.2 w10pie rfl⟩
  exact t.2.2.1 w10spec 1 ⟨"b", [DataPoint.num 7], none, none, 0⟩
    (by decide) (by decide) (by decide) (by decide)
    (by intro p h; simp at h)

/-- C7: in the request built by `handleSubmit`, each hint key is present
exactly when the corresponding input is non-empty (`x_field`/`y_field`
after trimming whitespace), and when no hint key is set the request's
`hints` member is `null` rather than an empty object. -/
theorem claim_C7 (st : JsonInputState) :
    (("preferred_chart_type" ∈ ((handleSubmitRequestHints st).getD []).map Prod.fst) ↔
      st.preferredChartType ≠ "") ∧
    (("x_field" ∈ ((handleSubmitRequestHints st).getD []).map Prod.fst) ↔
      jsTrim st.xField ≠ "") ∧
    (("y_field" ∈ ((handleSubmitRequestHints st).getD []).map Prod.fst) ↔
      jsTrim st.yField ≠ "") ∧
    (handleSubmitRequestHints st = none ↔
      (st.preferredChartType = "" ∧ jsTrim st.xField = "" ∧ jsTrim st.yField = "")) := by
  by_cases hp : st.preferredChartType = "" <;>
    by_cases hx : jsTrim st.xField = "" <;>
    by_cases hy : jsTrim st.yField = "" <;>
    simp [handleSubmitRequestHints, buildHints, hp, hx, hy]
